import Mathlib

/-!
Verification of the Local Inference Runtime & Retrieval Subsystem of RowFlow:
the `OllamaSupervisor` process-lifecycle state machine
(`src/apps/desktop/src-tauri/src/ai/supervisor.rs`) and the `VectorStore`
embedding store (`src/apps/desktop/src-tauri/src/ai/vector_store.rs`).

The Rust code is shallowly embedded: each method becomes a pure state
transformer; external effects (process spawning, HTTP probes, SIGTERM
delivery, SQL statement execution) are passed in as explicit outcome
parameters, so every run of the Rust code corresponds to an instantiation
of the Lean function at the outcomes the environment produced.
-/

set_option linter.unusedVariables false

namespace RowFlow

/-- The error enum `RowFlowError` (src/error.rs), restricted to the variants
the AI subsystem constructs. -/
inductive RowFlowError where
  | OllamaError (msg : String)
  | InternalError (msg : String)
  | StorageError (msg : String)
  deriving DecidableEq

/-- `OllamaProcessStatus` (supervisor.rs:52-59). -/
inductive OllamaProcessStatus where
  | Stopped
  | Starting
  | Running
  | Unhealthy
  | Failed
  deriving DecidableEq

/-- `SupervisorConfig` (supervisor.rs:14-28), restricted to the fields the
state machine reads. -/
structure SupervisorConfig where
  port : ℕ
  max_restart_attempts : ℕ
  deriving DecidableEq

/-- `SupervisorState` (supervisor.rs:43-50).  Timestamps are modelled as
integers. -/
structure SupervisorState where
  status : OllamaProcessStatus
  process_handle : Option ℕ
  restart_count : ℕ
  last_health_check : Option ℤ
  error_message : Option String
  deriving DecidableEq

/-- The state installed by `OllamaSupervisor::new` (supervisor.rs:62-73). -/
def newSupervisorState : SupervisorState :=
  { status := OllamaProcessStatus.Stopped
    process_handle := none
    restart_count := 0
    last_health_check := none
    error_message := none }

/-- Outcome of the OS `cmd.spawn()` call in `start` (supervisor.rs:118). -/
inductive SpawnOutcome where
  | spawned (pid : ℕ)
  | spawnError (msg : String)
  deriving DecidableEq

/-- Outcome of the HTTP probe in `health_check` (supervisor.rs:184):
either a response arrived (with success or non-success status) or the
request failed with a network error. -/
inductive ProbeOutcome where
  | response (success : Bool)
  | netError (msg : String)
  deriving DecidableEq

/-- Whether a probe outcome counts as a failed probe (non-success response
or network error). -/
def probeFailed : ProbeOutcome → Bool
  | ProbeOutcome.response ok => !ok
  | ProbeOutcome.netError _ => true

deriving instance DecidableEq for Except

/-- Result of `stop`: the new state, the returned `Result`, and whether a
termination signal was actually sent to a process. -/
structure StopOutcome where
  state : SupervisorState
  result : Except RowFlowError Unit
  signal_sent : Bool
  deriving DecidableEq

/-- `OllamaSupervisor::start` (supervisor.rs:100-138).  `spawn` is the
outcome of the OS process spawn. -/
def start (s : SupervisorState) (spawn : SpawnOutcome) :
    SupervisorState × Except RowFlowError Unit :=
  if s.status = OllamaProcessStatus.Running then (s, Except.ok ())
  else
    match spawn with
    | SpawnOutcome.spawned pid =>
        ({ s with
            status := OllamaProcessStatus.Running
            process_handle := some pid
            error_message := none },
         Except.ok ())
    | SpawnOutcome.spawnError msg =>
        ({ s with
            status := OllamaProcessStatus.Failed
            error_message := some msg },
         Except.error (RowFlowError.OllamaError ("Failed to start Ollama: " ++ msg)))

/-- `OllamaSupervisor::stop` (supervisor.rs:141-175).  `killOk` records
whether the SIGTERM/taskkill delivery succeeded; the code only logs a
delivery failure, so the result does not depend on it. -/
def stop (s : SupervisorState) (killOk : Bool) : StopOutcome :=
  if s.status = OllamaProcessStatus.Stopped then
    { state := s, result := Except.ok (), signal_sent := false }
  else
    { state :=
        { s with
            status := OllamaProcessStatus.Stopped
            process_handle := none
            restart_count := 0 }
      result := Except.ok ()
      signal_sent := s.process_handle.isSome }

/-- `OllamaSupervisor::health_check` (supervisor.rs:178-211).  `now` is the
`SystemTime::now()` sample; the returned value is the `Result<bool>` of the
method.  Note that on a non-success response the code sets `Unhealthy` but
does not touch `error_message`. -/
def health_check (s : SupervisorState) (probe : ProbeOutcome) (now : ℤ) :
    SupervisorState × Except RowFlowError Bool :=
  match probe with
  | ProbeOutcome.response success =>
      let s1 := { s with last_health_check := some now }
      if success then
        if s1.status ≠ OllamaProcessStatus.Running then
          ({ s1 with status := OllamaProcessStatus.Running, restart_count := 0 },
           Except.ok true)
        else (s1, Except.ok true)
      else ({ s1 with status := OllamaProcessStatus.Unhealthy }, Except.ok false)
  | ProbeOutcome.netError msg =>
      ({ s with
          status := OllamaProcessStatus.Unhealthy
          last_health_check := some now
          error_message := some msg },
       Except.ok false)

/-- The distinct error raised by `restart` when the budget is exhausted
(supervisor.rs:219-221). -/
def restartBudgetError : RowFlowError :=
  RowFlowError.OllamaError "Max restart attempts exceeded"

/-- `OllamaSupervisor::restart` (supervisor.rs:214-235): budget check, then
increment `restart_count`, then `stop()`, a backoff sleep, and `start()`. -/
def restart (cfg : SupervisorConfig) (s : SupervisorState)
    (spawn : SpawnOutcome) (killOk : Bool) :
    SupervisorState × Except RowFlowError Unit :=
  if s.restart_count ≥ cfg.max_restart_attempts then
    ({ s with status := OllamaProcessStatus.Failed }, Except.error restartBudgetError)
  else
    let s1 := { s with restart_count := s.restart_count + 1 }
    let s2 := (stop s1 killOk).state
    start s2 spawn

/-- One iteration of the `supervise` loop body (supervisor.rs:238-263),
after the interval sleep.  The second component is `none` when the loop
continues and `some r` when the loop terminates with `supervise` returning
`r`.  A restart failure inside the loop is logged and ignored
(supervisor.rs:252-254); on exhausted budget the loop breaks and the
function returns `Ok(())` (supervisor.rs:257, 262). -/
def superviseStep (cfg : SupervisorConfig) (s : SupervisorState)
    (probe : ProbeOutcome) (spawn : SpawnOutcome) (killOk : Bool) (now : ℤ) :
    SupervisorState × Option (Except RowFlowError Unit) :=
  match health_check s probe now with
  | (s1, Except.error e) => (s1, some (Except.error e))
  | (s1, Except.ok isHealthy) =>
      if isHealthy then (s1, none)
      else if s1.restart_count < cfg.max_restart_attempts then
        ((restart cfg s1 spawn killOk).1, none)
      else (s1, some (Except.ok ()))

/-- `SupervisorConfig::default` (supervisor.rs:30-41): `max_restart_attempts = 3`. -/
def defaultConfig : SupervisorConfig :=
  { port := 11435, max_restart_attempts := 3 }

/-- A supervisor state with a running process, as after a successful `start`. -/
def runningState : SupervisorState :=
  { status := OllamaProcessStatus.Running
    process_handle := some 41
    restart_count := 0
    last_health_check := none
    error_message := none }

/-- A state whose restart budget is exhausted under `defaultConfig`. -/
def exhaustedState : SupervisorState :=
  { status := OllamaProcessStatus.Unhealthy
    process_handle := some 41
    restart_count := 3
    last_health_check := none
    error_message := none }

/-- One failed-health-check-then-restart cycle: the probe fails with a
network error, then `restart` is called and the spawn succeeds. -/
def failCycle (cfg : SupervisorConfig) (now : ℤ) (pid : ℕ)
    (s : SupervisorState) : SupervisorState :=
  (restart cfg (health_check s (ProbeOutcome.netError "connection refused") now).1
    (SpawnOutcome.spawned pid) true).1

/-- `EmbeddingRecord` (vector_store.rs:14-24).  `metadata` is modelled as
the serialized JSON text that `insert_embeddings` writes
(vector_store.rs:74); `embedding` components are modelled as rationals. -/
structure EmbeddingRecord where
  connection_id : String
  schema_name : String
  table_name : String
  row_reference : String
  chunk_hash : String
  content : String
  metadata : String
  embedding : List ℚ
  deriving DecidableEq

/-- The five-column value of the unique index `idx_embeddings_unique`
(vector_store.rs:262-263). -/
structure RecordKey where
  connection_id : String
  schema_name : String
  table_name : String
  row_reference : String
  chunk_hash : String
  deriving DecidableEq

/-- One row of the `embeddings` table (vector_store.rs:249-260). -/
structure StoredRow where
  connection_id : String
  schema_name : String
  table_name : String
  row_reference : String
  chunk_hash : String
  content : String
  metadata : String
  embedding : List ℚ
  created_at : ℤ
  deriving DecidableEq

/-- The unique-index key of a stored row. -/
def StoredRow.key (r : StoredRow) : RecordKey :=
  { connection_id := r.connection_id
    schema_name := r.schema_name
    table_name := r.table_name
    row_reference := r.row_reference
    chunk_hash := r.chunk_hash }

/-- The unique-index key an `EmbeddingRecord` inserts under. -/
def EmbeddingRecord.key (r : EmbeddingRecord) : RecordKey :=
  { connection_id := r.connection_id
    schema_name := r.schema_name
    table_name := r.table_name
    row_reference := r.row_reference
    chunk_hash := r.chunk_hash }

/-- The `DO UPDATE SET` clause of the upsert statement
(vector_store.rs:64-68): replaces `content`, `metadata`, `embedding`,
`created_at`, keeping the key columns and row identity. -/
def applyUpdate (row : StoredRow) (r : EmbeddingRecord) (now : ℤ) : StoredRow :=
  { row with
      content := r.content
      metadata := r.metadata
      embedding := r.embedding
      created_at := now }

/-- The row freshly inserted for `r` (vector_store.rs:51-62). -/
def insertRow (r : EmbeddingRecord) (now : ℤ) : StoredRow :=
  { connection_id := r.connection_id
    schema_name := r.schema_name
    table_name := r.table_name
    row_reference := r.row_reference
    chunk_hash := r.chunk_hash
    content := r.content
    metadata := r.metadata
    embedding := r.embedding
    created_at := now }

/-- Execution of one `INSERT ... ON CONFLICT ... DO UPDATE` statement
(vector_store.rs:49-70, 76-86) against the `embeddings` table: if a row
with the same five-part key exists it is updated in place, otherwise a new
row is appended. -/
def upsertRow (table : List StoredRow) (r : EmbeddingRecord) (now : ℤ) :
    List StoredRow :=
  if table.any (fun row => decide (row.key = r.key)) then
    table.map (fun row => if row.key = r.key then applyUpdate row r now else row)
  else table ++ [insertRow r now]

/-- Number of stored rows carrying the key `k`. -/
def keyCount (k : RecordKey) (table : List StoredRow) : ℕ :=
  table.countP (fun row => decide (row.key = k))

/-- The invariant enforced by the unique index `idx_embeddings_unique`. -/
def UniqueKeys (table : List StoredRow) : Prop :=
  ∀ k, keyCount k table ≤ 1

/-- `VectorStore::insert_embeddings` (vector_store.rs:38-99) inside the
transaction: statements are executed in order, `inserted` counts the
processed records, and `execOk i` tells whether the i-th `stmt.execute`
call succeeds; a failing statement aborts the transaction with a storage
error. -/
def runUpserts (table : List StoredRow) (records : List EmbeddingRecord)
    (now : ℤ) (execOk : ℕ → Bool) (inserted : ℕ) :
    Except RowFlowError (List StoredRow × ℕ) :=
  match records with
  | [] => Except.ok (table, inserted)
  | r :: rs =>
      if execOk inserted then
        runUpserts (upsertRow table r now) rs now execOk (inserted + 1)
      else Except.error (RowFlowError.StorageError "execute failed")

/-- `VectorStore::insert_embeddings` (vector_store.rs:38-99): empty batches
return 0 without touching the store; otherwise all statements run inside
one transaction. -/
def insert_embeddings (table : List StoredRow) (records : List EmbeddingRecord)
    (now : ℤ) (execOk : ℕ → Bool) : Except RowFlowError (List StoredRow × ℕ) :=
  if records.isEmpty then Except.ok (table, 0)
  else runUpserts table records now execOk 0

/-- The table contents after an `insert_embeddings` call: on success the
committed transaction result, on failure the transaction is rolled back
(the `Transaction` is dropped before `commit`, vector_store.rs:47, 92) and
the table is unchanged. -/
def storeAfterInsert (table : List StoredRow) (records : List EmbeddingRecord)
    (now : ℤ) (execOk : ℕ → Bool) : List StoredRow :=
  match insert_embeddings table records now execOk with
  | Except.ok (t, _) => t
  | Except.error _ => table

/-- Sum of squares of a vector's components, as in the `norm_a`/`norm_b`
computations (vector_store.rs:286-287) before the square root. -/
def sumSq (v : List ℚ) : ℚ :=
  (v.map (fun x => x * x)).sum

/-- The dot product `a.iter().zip(b).map(|(l, r)| l * r).sum()`
(vector_store.rs:285); `zip` truncates to the shorter vector. -/
def dotProd (a b : List ℚ) : ℚ :=
  (List.zipWith (fun x y => x * y) a b).sum

/-- `cosine_similarity` (vector_store.rs:284-294), with `f32` arithmetic
modelled exactly over the reals: if either magnitude is zero the result is
`0`, otherwise the normalized dot product. -/
noncomputable def cosine_similarity (a b : List ℚ) : ℝ :=
  if Real.sqrt ((sumSq a : ℚ) : ℝ) = 0 ∨ Real.sqrt ((sumSq b : ℚ) : ℝ) = 0 then 0
  else ((dotProd a b : ℚ) : ℝ) /
    (Real.sqrt ((sumSq a : ℚ) : ℝ) * Real.sqrt ((sumSq b : ℚ) : ℝ))

/-- `EmbeddingSearchMatch` (types.rs:279-286). -/
structure EmbeddingSearchMatch where
  row_reference : String
  schema : String
  table : String
  score : ℝ
  content : String
  metadata : String

/-- The SQL `WHERE` clause built by `search` (vector_store.rs:118-131):
`connection_id` must match, and the optional schema/table filters must
match when supplied. -/
def rowMatches (connection_id : String) (schema tbl : Option String)
    (row : StoredRow) : Bool :=
  row.connection_id == connection_id &&
  (match schema with
   | none => true
   | some s => row.schema_name == s) &&
  (match tbl with
   | none => true
   | some t => row.table_name == t)

/-- The `EmbeddingSearchMatch` built from one retrieved row
(vector_store.rs:138-157). -/
noncomputable def toMatch (q : List ℚ) (row : StoredRow) : EmbeddingSearchMatch :=
  { row_reference := row.row_reference
    schema := row.schema_name
    table := row.table_name
    score := cosine_similarity q row.embedding
    content := row.content
    metadata := row.metadata }

/-- The comparator `|a, b| b.score.partial_cmp(&a.score).unwrap_or(Equal)`
(vector_store.rs:161): over the reals `partial_cmp` is never `None`, and
`a` sorts no later than `b` exactly when `b.score ≤ a.score`. -/
noncomputable def scoreCmp (x y : EmbeddingSearchMatch) : Bool :=
  decide (y.score ≤ x.score)

/-- The scored candidate list of `search` before sorting: the rows
retrieved by the SQL filter, each mapped to a match (vector_store.rs:137-158). -/
noncomputable def searchCandidates (table : List StoredRow) (connection_id : String)
    (schema tbl : Option String) (q : List ℚ) : List EmbeddingSearchMatch :=
  (table.filter (rowMatches connection_id schema tbl)).map (toMatch q)

/-- The candidate list after the stable descending sort (vector_store.rs:160-161).
Rust's `sort_by` is a stable merge sort; `List.mergeSort` is the stable
merge sort with the same comparator. -/
noncomputable def searchSorted (table : List StoredRow) (connection_id : String)
    (schema tbl : Option String) (q : List ℚ) : List EmbeddingSearchMatch :=
  (searchCandidates table connection_id schema tbl q).mergeSort scoreCmp

/-- `VectorStore::search` (vector_store.rs:101-170): filter, score, stable
descending sort, truncate to `top_k`. -/
noncomputable def search (table : List StoredRow) (connection_id : String)
    (schema tbl : Option String) (q : List ℚ) (top_k : ℕ) :
    List EmbeddingSearchMatch :=
  (searchSorted table connection_id schema tbl q).take top_k

/-- A sample embedding record used by witnesses. -/
def sampleRecord : EmbeddingRecord :=
  { connection_id := "c1"
    schema_name := "public"
    table_name := "users"
    row_reference := "42"
    chunk_hash := "h1"
    content := "alice"
    metadata := "\x7b\x7d"
    embedding := [1, 0] }

/-- A record sharing `sampleRecord`'s five-part key but carrying drifted
content and a different vector. -/
def sampleRecordDrifted : EmbeddingRecord :=
  { connection_id := "c1"
    schema_name := "public"
    table_name := "users"
    row_reference := "42"
    chunk_hash := "h1"
    content := "alice smith"
    metadata := "\x7b\x7d"
    embedding := [0, 1] }

/-- The state reached from `runningState` after three consecutive
failed-health-check-then-restart cycles under the default configuration
(`max_restart_attempts = 3`), every spawn succeeding. -/
def cycledState : SupervisorState :=
  failCycle defaultConfig 2 43 (failCycle defaultConfig 1 42
    (failCycle defaultConfig 0 41 runningState))

/-- C7: after one or more restarts, a successful `health_check` on a
supervisor whose status is not `Running` sets status to `Running`, resets
`restart_count` to 0 and records `last_health_check`
(supervisor.rs:188-195). -/
theorem healthCheck_success_recovers (s : SupervisorState) (now : ℤ)
    (h : s.status ≠ OllamaProcessStatus.Running) :
    health_check s (ProbeOutcome.response true) now =
      ({ s with
          status := OllamaProcessStatus.Running
          restart_count := 0
          last_health_check := some now }, Except.ok true) := by
  simp [health_check, h]

/-- Witness for C7 at a concrete unhealthy state. -/
theorem healthCheck_success_recovers_witness :
    health_check
      { status := OllamaProcessStatus.Unhealthy, process_handle := some 42,
        restart_count := 2, last_health_check := none,
        error_message := some "down" }
      (ProbeOutcome.response true) 5 =
      ({ status := OllamaProcessStatus.Running, process_handle := some 42,
         restart_count := 0, last_health_check := some 5,
         error_message := some "down" }, Except.ok true) :=
  healthCheck_success_recovers
    { status := OllamaProcessStatus.Unhealthy, process_handle := some 42,
      restart_count := 2, last_health_check := none,
      error_message := some "down" } 5 (by decide)

/-- C8: `stop` always returns success; when status is already `Stopped` it
is a no-op with no signal sent; otherwise it sets `Stopped`, clears the
process handle and resets `restart_count` to 0 regardless of whether the
termination signal delivery (`killOk`) succeeded (supervisor.rs:141-175). -/
theorem stop_contract (s : SupervisorState) (killOk : Bool) :
    (stop s killOk).result = Except.ok () ∧
    (s.status = OllamaProcessStatus.Stopped →
      (stop s killOk).state = s ∧ (stop s killOk).signal_sent = false) ∧
    (s.status ≠ OllamaProcessStatus.Stopped →
      (stop s killOk).state =
        { s with
            status := OllamaProcessStatus.Stopped
            process_handle := none
            restart_count := 0 }) := by
  unfold stop
  by_cases h : s.status = OllamaProcessStatus.Stopped <;> simp [h]

/-- Witness for C8: the never-started supervisor, and a running one with a
failing kill. -/
theorem stop_contract_witness :
    (stop newSupervisorState false).result = Except.ok () ∧
    (stop newSupervisorState false).state = newSupervisorState ∧
    (stop newSupervisorState false).signal_sent = false ∧
    (stop runningState false).state =
      { status := OllamaProcessStatus.Stopped, process_handle := none,
        restart_count := 0, last_health_check := none, error_message := none } :=
  ⟨(stop_contract newSupervisorState false).1,
   ((stop_contract newSupervisorState false).2.1 rfl).1,
   ((stop_contract newSupervisorState false).2.1 rfl).2,
   (stop_contract runningState false).2.2 (by decide)⟩

/-- C5 counterexample: on a non-success HTTP response the code transitions
to `Unhealthy` and returns `Ok(false)` but does NOT record any error
detail in `error_message` (supervisor.rs:196-198 has no `error_message`
write), contradicting the claim that every failed probe records the error
detail. -/
theorem healthCheck_httpFailure_counterexample :
    (health_check newSupervisorState (ProbeOutcome.response false) 0).1.error_message
      = none ∧
    (health_check newSupervisorState (ProbeOutcome.response false) 0).1.status
      = OllamaProcessStatus.Unhealthy ∧
    (health_check newSupervisorState (ProbeOutcome.response false) 0).2
      = Except.ok false :=
  ⟨rfl, rfl, rfl⟩

/-- C5 amended: a failed probe transitions to `Unhealthy`, updates
`last_health_check` and returns `Ok(false)` (never an error); the error
detail is recorded in `error_message` only for a network error, while a
non-success HTTP response leaves `error_message` unchanged
(supervisor.rs:178-211). -/
theorem healthCheck_failed_probe (s : SupervisorState) (p : ProbeOutcome)
    (now : ℤ) (h : probeFailed p = true) :
    (health_check s p now).2 = Except.ok false ∧
    (health_check s p now).1.status = OllamaProcessStatus.Unhealthy ∧
    (health_check s p now).1.last_health_check = some now ∧
    (∀ msg, p = ProbeOutcome.netError msg →
      (health_check s p now).1.error_message = some msg) ∧
    (p = ProbeOutcome.response false →
      (health_check s p now).1.error_message = s.error_message) := by
  cases p with
  | response ok =>
      cases ok with
      | false => simp [health_check]
      | true => simp [probeFailed] at h
  | netError msg => simp [health_check]

/-- Witness for C5 (amended) at a concrete network-error probe. -/
theorem healthCheck_failed_probe_witness :
    (health_check newSupervisorState (ProbeOutcome.netError "refused") 7).1.error_message
      = some "refused" :=
  (healthCheck_failed_probe newSupervisorState (ProbeOutcome.netError "refused") 7
    (by decide)).2.2.2.1 "refused" rfl

/-- C6 counterexample: with the restart budget exhausted, a failed health
check makes the `supervise` loop break and `supervise` returns `Ok(())`
(supervisor.rs:257, 262) — no `RestartBudgetExhausted` error is surfaced
by the loop. -/
theorem supervise_exhausted_counterexample :
    (superviseStep defaultConfig exhaustedState (ProbeOutcome.netError "down")
      (SpawnOutcome.spawned 42) true 0).2 = some (Except.ok ()) := by
  decide

/-- C6 amended: once `restart_count` has reached `max_restart_attempts`,
`restart()` fails immediately with the distinct budget-exhausted error,
sets status to `Failed` and touches nothing else (in particular no process
is spawned: the result is independent of the spawn outcome); the
`supervise` loop, on a failed health check in that situation, exits
returning `Ok(())` rather than surfacing the error. -/
theorem budget_exhausted_contract (cfg : SupervisorConfig)
    (s : SupervisorState) (msg : String) (spawn : SpawnOutcome)
    (killOk : Bool) (now : ℤ)
    (h : cfg.max_restart_attempts ≤ s.restart_count) :
    restart cfg s spawn killOk =
      ({ s with status := OllamaProcessStatus.Failed },
       Except.error restartBudgetError) ∧
    (superviseStep cfg s (ProbeOutcome.netError msg) spawn killOk now).2 =
      some (Except.ok ()) := by
  constructor
  · simp [restart, h]
  · simp [superviseStep, health_check, Nat.not_lt.mpr h]

/-- Witness for C6 (amended) at the exhausted state under the default
configuration. -/
theorem budget_exhausted_contract_witness :
    restart defaultConfig exhaustedState (SpawnOutcome.spawned 42) true =
      ({ exhaustedState with status := OllamaProcessStatus.Failed },
       Except.error restartBudgetError) ∧
    (superviseStep defaultConfig exhaustedState (ProbeOutcome.netError "down")
      (SpawnOutcome.spawned 42) true 0).2 = some (Except.ok ()) :=
  budget_exhausted_contract defaultConfig exhaustedState "down"
    (SpawnOutcome.spawned 42) true 0 (by decide)

/-- C1 [code bug]: under the default configuration
(`max_restart_attempts = 3`), three consecutive failed health checks each
followed by `restart()` (with every spawn succeeding) leave the supervisor
`Running` with `restart_count = 0`, and a fourth failed-check-then-restart
still succeeds — the budget is never exhausted.  Root cause: `restart`
increments `restart_count` (supervisor.rs:224) but then calls `stop()`,
which resets `restart_count` to 0 whenever status is not `Stopped`
(supervisor.rs:172), erasing the increment on every cycle. -/
theorem restart_budget_never_exhausts :
    cycledState.status = OllamaProcessStatus.Running ∧
    cycledState.restart_count = 0 ∧
    (restart defaultConfig
      (health_check cycledState (ProbeOutcome.netError "connection refused") 3).1
      (SpawnOutcome.spawned 44) true).2 = Except.ok () := by
  decide

/-- Updating a row does not change its unique-index key. -/
theorem key_applyUpdate (row : StoredRow) (r : EmbeddingRecord) (now : ℤ) :
    (applyUpdate row r now).key = row.key := rfl

/-- A freshly inserted row carries the record's key. -/
theorem key_insertRow (r : EmbeddingRecord) (now : ℤ) :
    (insertRow r now).key = r.key := rfl

/-- The `DO UPDATE` branch of the upsert preserves every key's row count. -/
theorem keyCount_update (t : List StoredRow) (r : EmbeddingRecord) (now : ℤ)
    (k : RecordKey) :
    keyCount k (t.map fun row =>
      if row.key = r.key then applyUpdate row r now else row) = keyCount k t := by
  unfold keyCount
  rw [List.countP_map]
  apply List.countP_congr
  intro row hrow
  by_cases h : row.key = r.key <;> simp [h, Function.comp, key_applyUpdate]

/-- `List.any` over the conflict predicate detects a positive key count. -/
theorem any_key_iff (t : List StoredRow) (k : RecordKey) :
    (t.any fun row => decide (row.key = k)) = true ↔ 0 < keyCount k t := by
  rw [List.any_eq_true]
  unfold keyCount
  rw [List.countP_pos_iff]

/-- After upserting `r` into a table satisfying the unique index, exactly
one row carries `r`'s key. -/
theorem keyCount_upsert_self (t : List StoredRow) (r : EmbeddingRecord)
    (now : ℤ) (hu : UniqueKeys t) :
    keyCount r.key (upsertRow t r now) = 1 := by
  unfold upsertRow
  by_cases h : (t.any fun row => decide (row.key = r.key)) = true
  · rw [if_pos h, keyCount_update]
    exact le_antisymm (hu r.key) ((any_key_iff t r.key).mp h)
  · rw [if_neg h]
    have h0 : keyCount r.key t = 0 := by
      by_contra hc
      exact h ((any_key_iff t r.key).mpr (Nat.pos_of_ne_zero hc))
    unfold keyCount at h0 ⊢
    rw [List.countP_append, h0]
    simp [List.countP_cons, key_insertRow]

/-- The upsert preserves the unique-index invariant. -/
theorem uniqueKeys_upsert (t : List StoredRow) (r : EmbeddingRecord)
    (now : ℤ) (hu : UniqueKeys t) : UniqueKeys (upsertRow t r now) := by
  intro k
  unfold upsertRow
  by_cases h : (t.any fun row => decide (row.key = r.key)) = true
  · rw [if_pos h, keyCount_update]
    exact hu k
  · rw [if_neg h]
    unfold keyCount
    rw [List.countP_append]
    by_cases hk : k = r.key
    · subst hk
      have h0 : keyCount r.key t = 0 := by
        by_contra hc
        exact h ((any_key_iff t r.key).mpr (Nat.pos_of_ne_zero hc))
      unfold keyCount at h0
      rw [h0]
      simp [List.countP_cons, key_insertRow]
    · have h1 : List.countP (fun row => decide (row.key = k)) [insertRow r now] = 0 := by
        simp [List.countP_cons, key_insertRow]
        exact fun hc => hk hc.symm
      rw [h1]
      have h2 := hu k
      unfold keyCount at h2
      omega

/-- Every row carrying `r`'s key after an upsert of `r` holds `r`'s
`content`, `metadata`, `embedding` and the call's timestamp. -/
theorem upsert_values (t : List StoredRow) (r : EmbeddingRecord) (now : ℤ) :
    ∀ row ∈ upsertRow t r now, row.key = r.key →
      row.content = r.content ∧ row.metadata = r.metadata ∧
      row.embedding = r.embedding ∧ row.created_at = now := by
  intro row hmem hkey
  unfold upsertRow at hmem
  by_cases h : (t.any fun row => decide (row.key = r.key)) = true
  · rw [if_pos h] at hmem
    obtain ⟨orig, horig, heq⟩ := List.mem_map.mp hmem
    by_cases h2 : orig.key = r.key
    · rw [if_pos h2] at heq
      subst heq
      exact ⟨rfl, rfl, rfl, rfl⟩
    · rw [if_neg h2] at heq
      subst heq
      exact absurd hkey h2
  · rw [if_neg h] at hmem
    rcases List.mem_append.mp hmem with hin | hin
    · exact absurd (List.any_eq_true.mpr ⟨row, hin, by simp [hkey]⟩) h
    · rw [List.mem_singleton.mp hin]
      exact ⟨rfl, rfl, rfl, rfl⟩

/-- When a row with `r`'s key is present, the upsert updates in place and
the table length is unchanged. -/
theorem upsert_length_of_present (t : List StoredRow) (r : EmbeddingRecord)
    (now : ℤ) (h : 0 < keyCount r.key t) :
    (upsertRow t r now).length = t.length := by
  unfold upsertRow
  rw [if_pos ((any_key_iff t r.key).mpr h), List.length_map]

/-- C2: two upsert calls sharing the five-part key leave exactly one row
under that key: the second call changes no row count (update in place, no
append), and the surviving row holds the second call's `content`,
`metadata`, `embedding` and `created_at` (vector_store.rs:49-70, 262-263). -/
theorem upsert_twice_idempotent (t : List StoredRow)
    (r1 r2 : EmbeddingRecord) (n1 n2 : ℤ) (hu : UniqueKeys t)
    (hk : r1.key = r2.key) :
    keyCount r2.key (upsertRow (upsertRow t r1 n1) r2 n2) = 1 ∧
    (upsertRow (upsertRow t r1 n1) r2 n2).length =
      (upsertRow t r1 n1).length ∧
    ∀ row ∈ upsertRow (upsertRow t r1 n1) r2 n2, row.key = r2.key →
      row.content = r2.content ∧ row.metadata = r2.metadata ∧
      row.embedding = r2.embedding ∧ row.created_at = n2 := by
  have h1 : keyCount r2.key (upsertRow t r1 n1) = 1 :=
    hk ▸ keyCount_upsert_self t r1 n1 hu
  have hu1 : UniqueKeys (upsertRow t r1 n1) := uniqueKeys_upsert t r1 n1 hu
  exact ⟨keyCount_upsert_self _ r2 n2 hu1,
         upsert_length_of_present _ r2 n2 (by rw [h1]; exact Nat.one_pos),
         upsert_values _ r2 n2⟩

/-- Witness for C2: upserting a record and then a drifted record with the
same key into the empty store leaves exactly one row. -/
theorem upsert_twice_idempotent_witness :
    keyCount sampleRecordDrifted.key
      (upsertRow (upsertRow [] sampleRecord 1) sampleRecordDrifted 2) = 1 :=
  (upsert_twice_idempotent [] sampleRecord sampleRecordDrifted 1 2
    (fun _ => Nat.zero_le 1) rfl).1

/-- A successful transaction applies every record in order with the final
count `start + batch length`. -/
theorem runUpserts_ok (now : ℤ) (execOk : ℕ → Bool) :
    ∀ (rs : List EmbeddingRecord) (t : List StoredRow) (c : ℕ)
      (t' : List StoredRow) (m : ℕ),
      runUpserts t rs now execOk c = Except.ok (t', m) →
      m = c + rs.length ∧
      t' = rs.foldl (fun acc r => upsertRow acc r now) t := by
  intro rs
  induction rs with
  | nil =>
      intro t c t' m h
      unfold runUpserts at h
      injection h with h
      injection h with h1 h2
      subst h1
      subst h2
      exact ⟨rfl, rfl⟩
  | cons r rs ih =>
      intro t c t' m h
      unfold runUpserts at h
      by_cases he : execOk c = true
      · rw [if_pos he] at h
        obtain ⟨h1, h2⟩ := ih (upsertRow t r now) (c + 1) t' m h
        constructor
        · rw [h1, List.length_cons]
          omega
        · rw [h2]
          rfl
      · rw [if_neg he] at h
        exact absurd h (by simp)

/-- If every statement in the batch succeeds, the transaction commits with
the folded table and the batch length as count. -/
theorem runUpserts_ok_of_execOk (now : ℤ) (execOk : ℕ → Bool) :
    ∀ (rs : List EmbeddingRecord) (t : List StoredRow) (c : ℕ),
      (∀ i, i < rs.length → execOk (c + i) = true) →
      runUpserts t rs now execOk c =
        Except.ok (rs.foldl (fun acc r => upsertRow acc r now) t, c + rs.length) := by
  intro rs
  induction rs with
  | nil =>
      intro t c h
      rfl
  | cons r rs ih =>
      intro t c h
      unfold runUpserts
      have hc : execOk c = true := by
        have := h 0 (by simp)
        simpa using this
      rw [if_pos hc]
      rw [ih (upsertRow t r now) (c + 1) (fun i hi => by
        have := h (i + 1) (by simp; omega)
        simpa [Nat.add_assoc, Nat.add_comm 1 i] using this)]
      simp [List.length_cons]
      omega

/-- C3: `insert_embeddings` is transactional: an empty batch is a no-op
returning 0; a successful call returns exactly the batch length and applies
every record (in order); a failed call leaves the store unchanged (the
transaction is dropped before commit and rolls back); and a batch whose
statements all succeed does commit (vector_store.rs:38-99). -/
theorem insert_embeddings_contract (t : List StoredRow)
    (rs : List EmbeddingRecord) (now : ℤ) (execOk : ℕ → Bool) :
    (rs = [] → insert_embeddings t rs now execOk = Except.ok (t, 0)) ∧
    (∀ t' m, insert_embeddings t rs now execOk = Except.ok (t', m) →
      m = rs.length ∧ t' = rs.foldl (fun acc r => upsertRow acc r now) t) ∧
    (∀ e, insert_embeddings t rs now execOk = Except.error e →
      storeAfterInsert t rs now execOk = t) ∧
    ((∀ i, i < rs.length → execOk i = true) →
      insert_embeddings t rs now execOk =
        Except.ok (rs.foldl (fun acc r => upsertRow acc r now) t, rs.length)) := by
  refine ⟨?_, ?_, ?_, ?_⟩
  · intro h
    subst h
    rfl
  · intro t' m h
    unfold insert_embeddings at h
    by_cases he : rs.isEmpty = true
    · rw [if_pos he] at h
      injection h with h
      injection h with h1 h2
      subst h1
      subst h2
      rw [List.isEmpty_iff.mp he]
      exact ⟨rfl, rfl⟩
    · rw [if_neg he] at h
      have := runUpserts_ok now execOk rs t 0 t' m h
      simpa using this
  · intro e h
    unfold storeAfterInsert
    rw [h]
  · intro h
    unfold insert_embeddings
    by_cases he : rs.isEmpty = true
    · rw [if_pos he, List.isEmpty_iff.mp he]
      rfl
    · rw [if_neg he]
      have := runUpserts_ok_of_execOk now execOk rs t 0 (fun i hi => by
        simpa using h i hi)
      simpa using this

/-- Witness for C3: a concrete one-record batch with all statements
succeeding commits and reports count 1, and a failing statement yields an
unchanged store. -/
theorem insert_embeddings_contract_witness :
    insert_embeddings [] [sampleRecord] 5 (fun _ => true) =
      Except.ok ([insertRow sampleRecord 5], 1) ∧
    storeAfterInsert [] [sampleRecord] 5 (fun _ => false) = [] :=
  ⟨(insert_embeddings_contract [] [sampleRecord] 5 (fun _ => true)).2.2.2
      (fun i _ => rfl),
   (insert_embeddings_contract [] [sampleRecord] 5 (fun _ => false)).2.2.1
      (RowFlowError.StorageError "execute failed") rfl⟩

/-- The descending score comparator is transitive. -/
theorem scoreCmp_trans (a b c : EmbeddingSearchMatch) :
    scoreCmp a b → scoreCmp b c → scoreCmp a c := by
  simp only [scoreCmp, decide_eq_true_eq]
  exact fun h1 h2 => le_trans h2 h1

/-- The descending score comparator is total. -/
theorem scoreCmp_total (a b : EmbeddingSearchMatch) :
    scoreCmp a b || scoreCmp b a := by
  simp only [scoreCmp, Bool.or_eq_true, decide_eq_true_eq]
  exact le_total b.score a.score

/-- C4: `search` returns at most `top_k` matches, sorted by non-increasing
similarity score; every returned match comes from a stored row satisfying
the `connection_id`/schema/table filters; an empty candidate set yields an
empty result (not an error); and the sort is stable: any two candidates
already in weakly-descending score order (in particular, ties) keep their
relative order in the sorted list (vector_store.rs:101-170). -/
theorem search_contract (t : List StoredRow) (cid : String)
    (schema tbl : Option String) (q : List ℚ) (k : ℕ) :
    (search t cid schema tbl q k).length ≤ k ∧
    (search t cid schema tbl q k).Pairwise (fun x y => y.score ≤ x.score) ∧
    (∀ m ∈ search t cid schema tbl q k,
      ∃ row ∈ t, rowMatches cid schema tbl row = true ∧ m = toMatch q row) ∧
    (t.filter (rowMatches cid schema tbl) = [] →
      search t cid schema tbl q k = []) ∧
    (∀ a b, List.Sublist [a, b] (searchCandidates t cid schema tbl q) →
      b.score ≤ a.score →
      List.Sublist [a, b] (searchSorted t cid schema tbl q)) := by
  refine ⟨?_, ?_, ?_, ?_, ?_⟩
  · exact List.length_take_le k _
  · have hs := List.sorted_mergeSort scoreCmp_trans scoreCmp_total
      (searchCandidates t cid schema tbl q)
    have hs1 : (searchSorted t cid schema tbl q).Pairwise
        (fun x y => y.score ≤ x.score) := by
      apply hs.imp
      intro a b hab
      simpa [scoreCmp] using hab
    exact List.Pairwise.sublist (List.take_sublist _ _) hs1
  · intro m hm
    have hm1 : m ∈ searchSorted t cid schema tbl q := List.mem_of_mem_take hm
    have hm2 : m ∈ searchCandidates t cid schema tbl q :=
      List.mem_mergeSort.mp hm1
    obtain ⟨row, hrow, heq⟩ := List.mem_map.mp hm2
    obtain ⟨hrt, hmatch⟩ := List.mem_filter.mp hrow
    exact ⟨row, hrt, hmatch, heq.symm⟩
  · intro h
    unfold search searchSorted searchCandidates
    rw [h]
    simp
  · intro a b hsub hle
    exact List.pair_sublist_mergeSort scoreCmp_trans scoreCmp_total
      (decide_eq_true hle) hsub

/-- Witness for C4: searching an empty store returns the empty list. -/
theorem search_contract_witness :
    search [] "c1" none none [] 5 = [] :=
  (search_contract [] "c1" none none [] 5).2.2.2.1 rfl

/-- A vector of zeros has zero sum of squares. -/
theorem sumSq_eq_zero (v : List ℚ) (h : ∀ x ∈ v, x = 0) : sumSq v = 0 := by
  unfold sumSq
  apply List.sum_eq_zero
  intro y hy
  obtain ⟨x, hx, rfl⟩ := List.mem_map.mp hy
  rw [h x hx]
  ring

/-- C9: when either vector is all zeros (zero magnitude), the similarity is
exactly 0 — the zero-magnitude guard (vector_store.rs:289-290) fires, so
the value is defined (no NaN, no division by zero, no error) and the
ordering used by `search` stays total (vector_store.rs:284-294). -/
theorem cosine_similarity_zero_vector (a b : List ℚ)
    (h : (∀ x ∈ a, x = 0) ∨ (∀ x ∈ b, x = 0)) :
    cosine_similarity a b = 0 := by
  unfold cosine_similarity
  rcases h with h | h
  · have h0 : Real.sqrt ((sumSq a : ℚ) : ℝ) = 0 := by
      rw [sumSq_eq_zero a h]
      simp
    rw [if_pos (Or.inl h0)]
  · have h0 : Real.sqrt ((sumSq b : ℚ) : ℝ) = 0 := by
      rw [sumSq_eq_zero b h]
      simp
    rw [if_pos (Or.inr h0)]

/-- Witness for C9: the all-zeros query vector against a concrete stored
vector scores exactly 0. -/
theorem cosine_similarity_zero_vector_witness :
    cosine_similarity [0, 0] [1, 2] = 0 :=
  cosine_similarity_zero_vector [0, 0] [1, 2] (Or.inl (by decide))

/-- The zipped dot product only reads the common prefix of both vectors. -/
theorem dotProd_take (a b : List ℚ) :
    dotProd (a.take (min a.length b.length)) (b.take (min a.length b.length)) =
      dotProd a b := by
  induction a generalizing b with
  | nil => simp [dotProd]
  | cons x xs ih =>
      cases b with
      | nil => simp [dotProd]
      | cons y ys =>
          rw [List.length_cons, List.length_cons, Nat.succ_min_succ,
            List.take_succ_cons, List.take_succ_cons]
          unfold dotProd
          rw [List.zipWith_cons_cons, List.zipWith_cons_cons,
            List.sum_cons, List.sum_cons]
          have := ih ys
          unfold dotProd at this
          rw [this]

/-- C10: `cosine_similarity` is total over vectors of any two lengths — it
never errors or panics, its dot product is computed over the common prefix
(the `zip` truncates to the shorter vector, vector_store.rs:285) while each
magnitude is computed over that vector's full length
(vector_store.rs:286-287); concretely, a 2-component query against a
1-component stored vector evaluates without error. -/
theorem cosine_similarity_truncating (a b : List ℚ) :
    cosine_similarity a b =
      (if Real.sqrt ((sumSq a : ℚ) : ℝ) = 0 ∨ Real.sqrt ((sumSq b : ℚ) : ℝ) = 0
       then 0
       else ((dotProd (a.take (min a.length b.length))
                (b.take (min a.length b.length)) : ℚ) : ℝ) /
         (Real.sqrt ((sumSq a : ℚ) : ℝ) * Real.sqrt ((sumSq b : ℚ) : ℝ))) ∧
    cosine_similarity [1, 0] [1] = 1 := by
  constructor
  · rw [dotProd_take]
    rfl
  · unfold cosine_similarity
    have h1 : sumSq [(1 : ℚ), 0] = 1 := by norm_num [sumSq]
    have h2 : sumSq [(1 : ℚ)] = 1 := by norm_num [sumSq]
    have h3 : dotProd [(1 : ℚ), 0] [1] = 1 := by norm_num [dotProd]
    rw [h1, h2, h3]
    norm_num

end RowFlow
